import Mathlib

/-!
Shallow embedding of the lodge-management server (storage layer, booking
routes and SMS service) and proofs about its availability, booking,
payment and notification behaviour.

Conventions of the embedding:
* Timestamps (`Date` values) are integers counting milliseconds.
* Decimal-string monetary columns are modelled by their rational value.
* JavaScript `x || d` defaulting on possibly-missing fields is modelled
  by explicit `Option` helpers that also treat the falsy values `""` and
  `0` as missing, exactly as the source does.
* `Map` objects keyed by id are modelled as lists in insertion order;
  `Map.set` on an existing key replaces in place, on a new key appends.
* The `randomUUID()` calls are modelled by a fresh-id counter carried in
  the store state.
-/

/-- JavaScript `v || d` for an optional string field: `undefined` and the
empty string are falsy and fall back to the default. -/
def jsOrStr (v : Option String) (d : String) : String :=
  match v with
  | none => d
  | some s => if s = "" then d else s

/-- JavaScript `v || null` for an optional string field: the empty string
collapses to `null`. -/
def jsOrNull (v : Option String) : Option String :=
  match v with
  | none => none
  | some s => if s = "" then none else some s

/-- JavaScript `v || d` for an optional integer field: `undefined` and `0`
are falsy and fall back to the default. -/
def jsOrInt (v : Option Int) (d : Int) : Int :=
  match v with
  | none => d
  | some n => if n = 0 then d else n

/-- JavaScript truthiness of an optional string (`undefined` and `""` are
falsy). -/
def jsTruthy (v : Option String) : Bool :=
  match v with
  | none => false
  | some s => s ≠ ""

/-- Fresh identifier produced for the n-th record created by the store
(stands for `randomUUID()`). -/
def freshId (n : Nat) : String :=
  "uuid-" ++ Nat.repr n

/-- `rooms` table row (shared/schema.ts). -/
structure Room where
  id : String
  roomNumber : String
  roomType : String
  basePrice : ℚ
  status : String
  floor : Int
deriving DecidableEq, Repr

/-- `guests` table row (shared/schema.ts). -/
structure Guest where
  id : String
  name : String
  phoneNumber : String
  aadharNumber : String
  checkinDate : Int
  checkoutDate : Int
  roomId : Option String
  numberOfGuests : Int
  totalAmount : ℚ
  status : String
  createdAt : Int
deriving DecidableEq, Repr

/-- `payments` table row (shared/schema.ts). -/
structure Payment where
  id : String
  guestId : String
  amount : ℚ
  paymentMethod : String
  status : String
  createdAt : Int
  paidAt : Option Int
deriving DecidableEq, Repr

/-- `sms_logs` table row (shared/schema.ts). -/
structure SmsLog where
  id : String
  guestId : String
  phoneNumber : String
  message : String
  status : String
  sentAt : Int
deriving DecidableEq, Repr

/-- `InsertGuest` (insertGuestSchema omits id/createdAt; columns with
defaults or nullable columns are optional). -/
structure InsertGuest where
  name : String
  phoneNumber : String
  aadharNumber : String
  checkinDate : Int
  checkoutDate : Int
  roomId : Option String
  numberOfGuests : Option Int
  totalAmount : ℚ
  status : Option String
deriving DecidableEq, Repr

/-- `InsertPayment` (insertPaymentSchema omits id/createdAt/paidAt; status
has a default so it is optional). -/
structure InsertPayment where
  guestId : String
  amount : ℚ
  paymentMethod : String
  status : Option String
deriving DecidableEq, Repr

/-- `Partial<InsertRoom>`: every insertable room column optional. -/
structure RoomPatch where
  roomNumber : Option String := none
  roomType : Option String := none
  basePrice : Option ℚ := none
  status : Option String := none
  floor : Option Int := none
deriving DecidableEq, Repr

/-- `Partial<InsertPayment>`: every insertable payment column optional. -/
structure PaymentPatch where
  guestId : Option String := none
  amount : Option ℚ := none
  paymentMethod : Option String := none
  status : Option String := none
deriving DecidableEq, Repr

/-- The spread `{ ...existing, ...room }` for a room update. -/
def applyRoomPatch (r : Room) (p : RoomPatch) : Room :=
  { r with
    roomNumber := p.roomNumber.getD r.roomNumber
    roomType := p.roomType.getD r.roomType
    basePrice := p.basePrice.getD r.basePrice
    status := p.status.getD r.status
    floor := p.floor.getD r.floor }

/-- The spread `{ ...existing, ...payment }` for a payment update (without
the `paidAt` special case, which `MemStorage.updatePayment` adds on top). -/
def applyPaymentPatch (pmt : Payment) (p : PaymentPatch) : Payment :=
  { pmt with
    guestId := p.guestId.getD pmt.guestId
    amount := p.amount.getD pmt.amount
    paymentMethod := p.paymentMethod.getD pmt.paymentMethod
    status := p.status.getD pmt.status }

/-- In-memory store state (`MemStorage`): the entity maps in insertion
order plus the fresh-id counter. -/
structure MemState where
  rooms : List Room
  guests : List Guest
  payments : List Payment
  smsLogs : List SmsLog
  nextId : Nat
deriving DecidableEq, Repr

/-- The empty store. -/
def MemState.empty : MemState :=
  { rooms := [], guests := [], payments := [], smsLogs := [], nextId := 0 }

/-- `MemStorage.getRoom`: `this.rooms.get(id)`. -/
def MemState.getRoom (s : MemState) (id : String) : Option Room :=
  s.rooms.find? (fun r => r.id == id)

/-- `MemStorage.updateRoom`: look up the room, merge the patch in place,
return the updated room (or `undefined` when absent). -/
def MemState.updateRoom (s : MemState) (id : String) (p : RoomPatch) :
    Option Room × MemState :=
  match s.rooms.find? (fun r => r.id == id) with
  | none => (none, s)
  | some existing =>
    let updated := applyRoomPatch existing p
    (some updated,
      { s with rooms := s.rooms.map (fun r => if r.id == id then updated else r) })

/-- `MemStorage.deleteRoom`: `this.rooms.delete(id)` — removes the entry
unconditionally and reports whether anything was removed. -/
def MemState.deleteRoom (s : MemState) (id : String) : Bool × MemState :=
  (s.rooms.any (fun r => r.id == id),
    { s with rooms := s.rooms.filter (fun r => !(r.id == id)) })

/-- `MemStorage.getAvailableRooms`: rooms whose `status` is `"available"`,
minus the rooms referenced by active guests whose stay overlaps the
requested interval (`checkinDate < guestCheckout && checkoutDate >
guestCheckin`). The overlapping guests' `roomId`s are collected without
dropping `null`. -/
def MemState.getAvailableRooms (s : MemState) (checkinDate checkoutDate : Int) :
    List Room :=
  let availableRooms := s.rooms.filter (fun room => room.status == "available")
  let overlappingGuests := s.guests.filter (fun guest =>
    guest.status == "active" &&
    checkinDate < guest.checkoutDate && checkoutDate > guest.checkinDate)
  let occupiedRoomIds := overlappingGuests.map (fun guest => guest.roomId)
  availableRooms.filter (fun room => !(occupiedRoomIds.contains (some room.id)))

/-- `DatabaseStorage.getAvailableRooms` of the drizzle-backed storage file:
starts from ALL rooms (no status filter), subtracts the rooms of active
guests with overlapping stays, dropping `null` room ids
(`.filter(Boolean)`). -/
def MemState.dbGetAvailableRooms (s : MemState) (checkinDate checkoutDate : Int) :
    List Room :=
  let allRooms := s.rooms
  let overlappingGuests := s.guests.filter (fun guest =>
    guest.status == "active" &&
    guest.checkinDate < checkoutDate && guest.checkoutDate > checkinDate)
  let occupiedRoomIds := (overlappingGuests.map (fun guest => guest.roomId)).reduceOption
  allRooms.filter (fun room => !(occupiedRoomIds.contains room.id))

/-- `MemStorage.createGuest`: fresh id, `roomId || null`,
`numberOfGuests || 1`, `status || "active"`, `createdAt = new Date()`. -/
def MemState.createGuest (s : MemState) (now : Int) (g : InsertGuest) :
    Guest × MemState :=
  let id := freshId s.nextId
  let newGuest : Guest :=
    { id := id
      name := g.name
      phoneNumber := g.phoneNumber
      aadharNumber := g.aadharNumber
      checkinDate := g.checkinDate
      checkoutDate := g.checkoutDate
      roomId := jsOrNull g.roomId
      numberOfGuests := jsOrInt g.numberOfGuests 1
      totalAmount := g.totalAmount
      status := jsOrStr g.status "active"
      createdAt := now }
  (newGuest, { s with guests := s.guests ++ [newGuest], nextId := s.nextId + 1 })

/-- `MemStorage.createPayment`: fresh id, `status || "pending"`,
`createdAt = new Date()`, `paidAt = null`. -/
def MemState.createPayment (s : MemState) (now : Int) (p : InsertPayment) :
    Payment × MemState :=
  let id := freshId s.nextId
  let newPayment : Payment :=
    { id := id
      guestId := p.guestId
      amount := p.amount
      paymentMethod := p.paymentMethod
      status := jsOrStr p.status "pending"
      createdAt := now
      paidAt := none }
  (newPayment, { s with payments := s.payments ++ [newPayment], nextId := s.nextId + 1 })

/-- `MemStorage.updatePayment`: merge the patch and set
`paidAt = payment.status === "paid" ? new Date() : existing.paidAt`. -/
def MemState.updatePayment (s : MemState) (now : Int) (id : String)
    (p : PaymentPatch) : Option Payment × MemState :=
  match s.payments.find? (fun pmt => pmt.id == id) with
  | none => (none, s)
  | some existing =>
    let updated :=
      { applyPaymentPatch existing p with
        paidAt := if p.status == some "paid" then some now else existing.paidAt }
    (some updated,
      { s with payments := s.payments.map (fun pmt => if pmt.id == id then updated else pmt) })

/-- `DatabaseStorage.updatePayment`: a plain `UPDATE ... SET` of exactly
the supplied columns — no `paidAt` logic (and `paidAt` is not an
insert-schema column, so it is never among the supplied ones). -/
def dbUpdatePayment (payments : List Payment) (id : String) (p : PaymentPatch) :
    Option Payment × List Payment :=
  match payments.find? (fun pmt => pmt.id == id) with
  | none => (none, payments)
  | some existing =>
    let updated := applyPaymentPatch existing p
    (some updated, payments.map (fun pmt => if pmt.id == id then updated else pmt))

/-- `MemStorage.createSmsLog`: fresh id, `status || "sent"`,
`sentAt = new Date()`. -/
def MemState.createSmsLog (s : MemState) (now : Int)
    (guestId phoneNumber message status : String) : SmsLog × MemState :=
  let id := freshId s.nextId
  let newLog : SmsLog :=
    { id := id
      guestId := guestId
      phoneNumber := phoneNumber
      message := message
      status := jsOrStr (some status) "sent"
      sentAt := now }
  (newLog, { s with smsLogs := s.smsLogs ++ [newLog], nextId := s.nextId + 1 })

/-- One storage operation performed by the guest-registration route, in
the order the handler awaits them. -/
inductive StorageOp where
  | getRoomOp (id : String)
  | getAvailableRoomsOp (checkinDate checkoutDate : Int)
  | updateRoomOp (id : String) (p : RoomPatch)
  | createGuestOp (id : String)
  | createPaymentOp (id : String)
deriving DecidableEq, Repr

/-- `POST /api/guests` (routes.ts), after session check and schema parse.
If a room is requested (truthy `roomId`): look the room up (400 `Room not
found` if absent), query availability for the stay, reject with 400
`Room not available for selected dates` if the requested room is not in
the returned set, and otherwise set the room's status to `occupied`.
Then create the guest and a pending cash payment over
`validatedData.totalAmount` and respond with the guest.  The welcome-SMS
step is fire-and-forget and touches neither rooms, guests nor payments,
so it is not part of this transition.  The third component lists the
storage operations in execution order. -/
def registerGuest (s : MemState) (now : Int) (req : InsertGuest) :
    Except String Guest × MemState × List StorageOp :=
  if jsTruthy req.roomId then
    let rid := req.roomId.getD ""
    match s.getRoom rid with
    | none => (Except.error "Room not found", s, [StorageOp.getRoomOp rid])
    | some _room =>
      let avail := s.getAvailableRooms req.checkinDate req.checkoutDate
      if avail.any (fun r => r.id == rid) then
        let occupiedPatch : RoomPatch := { status := some "occupied" }
        let s1 := (s.updateRoom rid occupiedPatch).2
        let gs := s1.createGuest now req
        let ps := gs.2.createPayment now
          { guestId := gs.1.id
            amount := req.totalAmount
            paymentMethod := "cash"
            status := some "pending" }
        (Except.ok gs.1, ps.2,
          [StorageOp.getRoomOp rid,
           StorageOp.getAvailableRoomsOp req.checkinDate req.checkoutDate,
           StorageOp.updateRoomOp rid occupiedPatch,
           StorageOp.createGuestOp gs.1.id,
           StorageOp.createPaymentOp ps.1.id])
      else
        (Except.error "Room not available for selected dates", s,
          [StorageOp.getRoomOp rid,
           StorageOp.getAvailableRoomsOp req.checkinDate req.checkoutDate])
  else
    let gs := s.createGuest now req
    let ps := gs.2.createPayment now
      { guestId := gs.1.id
        amount := req.totalAmount
        paymentMethod := "cash"
        status := some "pending" }
    (Except.ok gs.1, ps.2,
      [StorageOp.createGuestOp gs.1.id, StorageOp.createPaymentOp ps.1.id])

/-- `DELETE /api/rooms/:id` (routes.ts), after session check: call
`storage.deleteRoom(id)` unconditionally; 404 when nothing was deleted. -/
def deleteRoomRoute (s : MemState) (id : String) : Except String Unit × MemState :=
  let ds := s.deleteRoom id
  if ds.1 then (Except.ok (), ds.2) else (Except.error "Room not found", ds.2)

/-- Cost summary computed by the guest-registration modal. -/
structure CostBreakdown where
  baseAmount : ℚ
  discountAmount : ℚ
  totalAmount : ℚ
  totalDays : Int
deriving DecidableEq, Repr

/-- `calculateCost` (guest-registration modal): 24-hour periods with a
minimum of one day, `Math.max(1, Math.ceil((checkout - checkin) /
(1000*60*60*24)))`; `baseAmount = basePrice * totalDays`; the discount is
a percentage of the base amount. -/
def calculateCost (basePrice discountPercentage : ℚ) (checkinMs checkoutMs : Int) :
    CostBreakdown :=
  let totalDays : Int :=
    max 1 (Int.ceil (((checkoutMs : ℚ) - (checkinMs : ℚ)) / (1000 * 60 * 60 * 24)))
  let baseAmount := basePrice * (totalDays : ℚ)
  let discountAmount := baseAmount * (discountPercentage / 100)
  let totalAmount := baseAmount - discountAmount
  { baseAmount := baseAmount
    discountAmount := discountAmount
    totalAmount := totalAmount
    totalDays := totalDays }

/-- SMS template record (sms-service.ts). -/
structure SMSTemplate where
  id : String
  name : String
  category : String
  template : String
  templateVars : List String
  language : String
  active : Bool
deriving DecidableEq, Repr

/-- Provider/channel response (sms-service.ts `SMSResponse`). -/
structure SMSResponse where
  success : Bool
  messageId : Option String := none
  error : Option String := none
  cost : Option ℚ := none
deriving DecidableEq, Repr

/-- `welcome-booking` entry of `DEFAULT_SMS_TEMPLATES`. -/
def welcomeBookingTemplate : SMSTemplate :=
  { id := "welcome-booking"
    name := "Welcome & Booking Confirmation"
    category := "booking"
    template := "Welcome to [LODGE_NAME]! Your booking is confirmed. Room: [ROOM_NUMBER], Check-in: [CHECKIN_DATE] at [CHECKIN_TIME]. Amount: ₹[AMOUNT]. Thank you! (స్వాగతం [LODGE_NAME]కి! మీ బుకింగ్ కన్ఫర్మ్ అయ్యింది. గది: [ROOM_NUMBER], చెక్-ఇన్: [CHECKIN_DATE] [CHECKIN_TIME]కి. మొత్తం: ₹[AMOUNT]. ధన్యవాదాలు!)"
    templateVars := ["LODGE_NAME", "ROOM_NUMBER", "CHECKIN_DATE", "CHECKIN_TIME", "AMOUNT"]
    language := "both"
    active := true }

/-- `payment-confirmation` entry of `DEFAULT_SMS_TEMPLATES`. -/
def paymentConfirmationTemplate : SMSTemplate :=
  { id := "payment-confirmation"
    name := "Payment Received"
    category := "payment"
    template := "Payment received! ₹[AMOUNT] paid via [PAYMENT_METHOD] for room [ROOM_NUMBER]. Receipt ID: [RECEIPT_ID]. Thank you for staying with [LODGE_NAME]! (చెల్లింపు స్వీకరించబడింది! గది [ROOM_NUMBER] కోసం [PAYMENT_METHOD] ద్వారా ₹[AMOUNT] చెల్లించారు. రసీదు ID: [RECEIPT_ID]. [LODGE_NAME]తో ఉంటుండడానికి ధన్యవాదాలు!)"
    templateVars := ["AMOUNT", "PAYMENT_METHOD", "ROOM_NUMBER", "RECEIPT_ID", "LODGE_NAME"]
    language := "both"
    active := true }

/-- `checkout-bill` entry of `DEFAULT_SMS_TEMPLATES`. -/
def checkoutBillTemplate : SMSTemplate :=
  { id := "checkout-bill"
    name := "Checkout & Final Bill"
    category := "checkout"
    template := "Thank you for staying at [LODGE_NAME]! Your final bill: ₹[TOTAL_AMOUNT] ([DAYS] days). Please settle any pending dues. Safe travels! ([LODGE_NAME]లో ఉంటున్నందుకు ధన్యవాదాలు! మీ చివరి బిల్: ₹[TOTAL_AMOUNT] ([DAYS] రోజులు). దయచేసి పెండింగ్ చెల్లింపులు సరిచేయండి. సురక్షిత ప్రయాణం!)"
    templateVars := ["LODGE_NAME", "TOTAL_AMOUNT", "DAYS"]
    language := "both"
    active := true }

/-- `payment-reminder` entry of `DEFAULT_SMS_TEMPLATES`. -/
def paymentReminderTemplate : SMSTemplate :=
  { id := "payment-reminder"
    name := "Payment Reminder"
    category := "reminder"
    template := "Gentle reminder: Payment of ₹[AMOUNT] is pending for your stay at [LODGE_NAME], Room [ROOM_NUMBER]. Please settle at your earliest convenience. (గుర్తుచేయడం: [LODGE_NAME], గది [ROOM_NUMBER]లో మీ బస కోసం ₹[AMOUNT] చెల్లింపు పెండింగ్‌లో ఉంది. దయచేసి వీలైనంత త్వరగా చెల్లించండి.)"
    templateVars := ["AMOUNT", "LODGE_NAME", "ROOM_NUMBER"]
    language := "both"
    active := true }

/-- The fixed template set of the SMS service. -/
def DEFAULT_SMS_TEMPLATES : List SMSTemplate :=
  [welcomeBookingTemplate, paymentConfirmationTemplate,
   checkoutBillTemplate, paymentReminderTemplate]

/-- Left-to-right, non-rescanning global replacement of the pattern in a
character list — the behaviour of `message.replace(new RegExp(escaped,
'g'), value)` for a literal pattern. -/
def replaceChars (pat rep : List Char) : List Char → List Char
  | [] => []
  | c :: rest =>
    if h : pat ≠ [] ∧ pat.isPrefixOf (c :: rest) then
      rep ++ replaceChars pat rep ((c :: rest).drop pat.length)
    else
      c :: replaceChars pat rep rest
termination_by s => s.length
decreasing_by
  · have hp : 1 ≤ pat.length := List.length_pos.mpr h.1
    simp only [List.length_drop, List.length_cons]
    omega
  · simp

/-- Variable substitution of `sendTemplatedSMS`: for each supplied
variable, globally replace `[KEY]` by the value. -/
def renderTemplate (tmplText : String) (vars : List (String × String)) :
    String :=
  vars.foldl
    (fun m kv => ⟨replaceChars ("[" ++ kv.1 ++ "]").data kv.2.data m.data⟩)
    tmplText

/-- The per-phone rate-limit map (`rateLimitMap: Map<string, number[]>`). -/
abbrev RateMap : Type := List (String × List Int)

/-- `this.rateLimitMap.get(phoneNumber) || []`. -/
def rateMapGet (m : RateMap) (phone : String) : List Int :=
  match List.lookup phone m with
  | some l => l
  | none => []

/-- `this.rateLimitMap.set(phoneNumber, l)`: replace in place or append. -/
def rateMapSet (m : RateMap) (phone : String) (l : List Int) : RateMap :=
  if m.any (fun kv => kv.1 == phone) then
    m.map (fun kv => if kv.1 == phone then (phone, l) else kv)
  else
    m ++ [(phone, l)]

/-- `SMSService.checkRateLimit`: drop attempts older than the 60 s window,
refuse when five or more remain, otherwise record the current attempt. -/
def checkRateLimit (m : RateMap) (now : Int) (phone : String) :
    Bool × RateMap :=
  let attempts := rateMapGet m phone
  let recentAttempts := attempts.filter (fun time => now - time < 60000)
  if 5 ≤ recentAttempts.length then
    (false, m)
  else
    (true, rateMapSet m phone (recentAttempts ++ [now]))

/-- `SMSService.formatPhoneNumber`: strip non-digits; 10-digit numbers get
the `+91` country code, `91`-prefixed 12-digit numbers get a `+`. -/
def formatPhoneNumber (phone : String) : String :=
  let cleaned : String := ⟨phone.data.filter Char.isDigit⟩
  if cleaned.length = 10 then "+91" ++ cleaned
  else if cleaned.length = 12 && cleaned.startsWith "91" then "+" ++ cleaned
  else if cleaned.length = 13 && cleaned.startsWith "+91" then cleaned
  else phone

/-- `SMSService.logSMS`: forwards to `storage.createSmsLog` — but only
when a truthy `guestId` was supplied; otherwise nothing is written. -/
def logSMS (st : MemState) (now : Int) (guestId : Option String)
    (phoneNumber message status : String) : MemState :=
  if jsTruthy guestId then
    (st.createSmsLog now (guestId.getD "") phoneNumber message status).2
  else
    st

/-- `SMSService.sendTemplatedSMS`: template lookup, required-variable
check, `[VAR]` substitution, rate limiting, channel delivery, logging.
`channel` is the response of the external provider if it is contacted;
the middle `Bool` of the result records whether it was contacted.
Thrown errors are modelled by the catch branch: a `failed` log entry
(with message `Template: <id>`) and a failure response carrying the
error text. -/
def sendTemplatedSMS (rm : RateMap) (st : MemState) (now : Int)
    (templateId recipientPhone : String) (vars : List (String × String))
    (guestId : Option String) (channel : SMSResponse) :
    SMSResponse × Bool × RateMap × MemState :=
  match DEFAULT_SMS_TEMPLATES.find? (fun t => t.id == templateId && t.active) with
  | none =>
    ({ success := false,
       error := some ("Template " ++ templateId ++ " not found or inactive") },
     false, rm,
     logSMS st now guestId recipientPhone ("Template: " ++ templateId) "failed")
  | some template =>
    let missingVars := template.templateVars.filter
      (fun v => !(jsTruthy (List.lookup v vars)))
    if missingVars.length > 0 then
      ({ success := false,
         error := some ("Missing template variables: " ++
           String.intercalate ", " missingVars) },
       false, rm,
       logSMS st now guestId recipientPhone ("Template: " ++ templateId) "failed")
    else
      let message := renderTemplate template.template vars
      let rl := checkRateLimit rm now recipientPhone
      if !rl.1 then
        ({ success := false,
           error := some "Rate limit exceeded. Please try again later." },
         false, rl.2,
         logSMS st now guestId recipientPhone ("Template: " ++ templateId) "failed")
      else
        (channel, true, rl.2,
         logSMS st now guestId recipientPhone message
           (if channel.success then "sent" else "failed"))

/-! ### Availability-engine lemmas -/

/-- Membership characterization of `MemStorage.getAvailableRooms`: a room
is returned iff it is stored, its status is `"available"`, and no active
guest assigned to it has a stay overlapping the requested interval. -/
theorem mem_getAvailableRooms (s : MemState) (a b : Int) (r : Room) :
    r ∈ s.getAvailableRooms a b ↔
      r ∈ s.rooms ∧ r.status = "available" ∧
      ∀ g ∈ s.guests, g.status = "active" → g.roomId = some r.id →
        ¬(a < g.checkoutDate ∧ b > g.checkinDate) := by
  simp only [MemState.getAvailableRooms, List.mem_filter, List.elem_eq_mem,
    List.mem_map, Bool.not_eq_true', decide_eq_false_iff_not,
    Bool.and_eq_true, beq_iff_eq, decide_eq_true_eq]
  constructor
  · rintro ⟨⟨hr, hst⟩, hocc⟩
    refine ⟨hr, hst, ?_⟩
    intro g hg hact hrid hov
    exact hocc ⟨g, ⟨hg, ⟨hact, hov.1⟩, hov.2⟩, hrid⟩
  · rintro ⟨hr, hst, hng⟩
    refine ⟨⟨hr, hst⟩, ?_⟩
    rintro ⟨g, ⟨hg, ⟨hact, h1⟩, h2⟩, hrid⟩
    exact hng g hg hact hrid ⟨h1, h2⟩

/-- Membership characterization of the drizzle `DatabaseStorage.
getAvailableRooms`: NO status filter — a room is returned iff it is
stored and no active guest assigned to it has an overlapping stay. -/
theorem mem_dbGetAvailableRooms (s : MemState) (a b : Int) (r : Room) :
    r ∈ s.dbGetAvailableRooms a b ↔
      r ∈ s.rooms ∧
      ∀ g ∈ s.guests, g.status = "active" → g.roomId = some r.id →
        ¬(g.checkinDate < b ∧ g.checkoutDate > a) := by
  simp only [MemState.dbGetAvailableRooms, List.mem_filter, List.elem_eq_mem,
    List.reduceOption_mem_iff, List.mem_map, Bool.not_eq_true',
    decide_eq_false_iff_not, Bool.and_eq_true, beq_iff_eq, decide_eq_true_eq]
  constructor
  · rintro ⟨hr, hocc⟩
    refine ⟨hr, ?_⟩
    intro g hg hact hrid hov
    exact hocc ⟨g, ⟨hg, ⟨hact, hov.1⟩, hov.2⟩, hrid⟩
  · rintro ⟨hr, hng⟩
    refine ⟨hr, ?_⟩
    rintro ⟨g, ⟨hg, ⟨hact, h1⟩, h2⟩, hrid⟩
    exact hng g hg hact hrid ⟨h1, h2⟩

deriving instance DecidableEq for Except

/-! ### Concrete fixtures used by counterexamples and witnesses -/

/-- A stored room, number 101, status `available`. -/
def room101 : Room :=
  { id := "r1", roomNumber := "101", roomType := "single",
    basePrice := 1000, status := "available", floor := 1 }

/-- Store holding only `room101`. -/
def lodgeState0 : MemState :=
  { rooms := [room101], guests := [], payments := [], smsLogs := [], nextId := 0 }

/-- Registration request for room `r1`, stay `[0, 86400000)` (one day). -/
def guestReqA : InsertGuest :=
  { name := "Asha", phoneNumber := "9876543210", aadharNumber := "1111"
    checkinDate := 0, checkoutDate := 86400000, roomId := some "r1"
    numberOfGuests := some 1, totalAmount := 1000, status := none }

/-- Adjacent registration request for room `r1`, stay
`[86400000, 172800000)` — it starts exactly when `guestReqA` ends. -/
def guestReqB : InsertGuest :=
  { guestReqA with name := "Bala", checkinDate := 86400000, checkoutDate := 172800000 }

/-- The guest record `registerGuest lodgeState0 0 guestReqA` persists. -/
def guestArecord : Guest :=
  { id := "uuid-0", name := "Asha", phoneNumber := "9876543210"
    aadharNumber := "1111", checkinDate := 0, checkoutDate := 86400000
    roomId := some "r1", numberOfGuests := 1, totalAmount := 1000
    status := "active", createdAt := 0 }

/-- A room under maintenance. -/
def maintenanceRoom : Room :=
  { id := "m1", roomNumber := "201", roomType := "double",
    basePrice := 1500, status := "maintenance", floor := 2 }

/-- Store holding only `maintenanceRoom`, with no guests at all. -/
def maintState : MemState :=
  { rooms := [maintenanceRoom], guests := [], payments := [], smsLogs := [], nextId := 0 }

/-- `room101` flipped to `occupied` (as the booking route leaves it). -/
def room101occupied : Room := { room101 with status := "occupied" }

/-- Store with an active one-day guest on `r1` and the room still marked
`available` (e.g. staff set the status back by hand). -/
def touchState : MemState :=
  { rooms := [room101], guests := [guestArecord], payments := [],
    smsLogs := [], nextId := 1 }

/-- Store with `r1` occupied and no guest rows. -/
def occupiedState : MemState :=
  { rooms := [room101occupied], guests := [], payments := [], smsLogs := [], nextId := 0 }

/-! ### C1 — overlap exclusion, half-open boundaries, adjacency -/

/-- C1 counterexample: two adjacent bookings on the same room do NOT both
succeed.  Booking A for `[0, 1 day)` on room `r1` succeeds, flipping the
room's status to `occupied`; the adjacent booking B for `[1 day, 2 days)`
is then rejected, because `getAvailableRooms` keeps only rooms whose
status is `"available"` — even though no active guest's stay overlaps
`[1 day, 2 days)`. -/
theorem adjacent_bookings_second_fails :
    (registerGuest lodgeState0 0 guestReqA).1 = Except.ok guestArecord ∧
    (registerGuest (registerGuest lodgeState0 0 guestReqA).2.1 86400000 guestReqB).1 =
      Except.error "Room not available for selected dates" := by
  decide

/-- C1 (amended): (i) a room with an active guest whose stay overlaps the
queried interval (`checkin < b ∧ checkout > a`) is never returned;
(ii) an `available` room all of whose active guests merely touch the
endpoints (`checkout ≤ a` or `checkin ≥ b`) is returned — endpoint
contact does not count as a conflict; (iii) but a room whose status is
`occupied` is excluded for EVERY interval, so two adjacent bookings both
succeed only if the room's status has been reset to `available` in
between (the first booking leaves it `occupied`). -/
theorem getAvailableRooms_overlap_boundary (s : MemState) (a b : Int) (r : Room) :
    (∀ g ∈ s.guests, g.status = "active" → g.roomId = some r.id →
      g.checkinDate < b → g.checkoutDate > a → r ∉ s.getAvailableRooms a b) ∧
    (r ∈ s.rooms → r.status = "available" →
      (∀ g ∈ s.guests, g.status = "active" → g.roomId = some r.id →
        g.checkoutDate ≤ a ∨ b ≤ g.checkinDate) →
      r ∈ s.getAvailableRooms a b) ∧
    (r.status = "occupied" → r ∉ s.getAvailableRooms a b) := by
  refine ⟨?_, ?_, ?_⟩
  · intro g hg hact hrid hci hco hmem
    rcases (mem_getAvailableRooms s a b r).mp hmem with ⟨-, -, hng⟩
    exact hng g hg hact hrid ⟨by omega, by omega⟩
  · intro hr hst hng
    refine (mem_getAvailableRooms s a b r).mpr ⟨hr, hst, ?_⟩
    intro g hg hact hrid hov
    rcases hng g hg hact hrid with h | h <;> omega
  · intro hst hmem
    rcases (mem_getAvailableRooms s a b r).mp hmem with ⟨-, hav, -⟩
    rw [hst] at hav
    simp at hav

/-- Witness for C1: concrete uses of all three conjuncts — the
overlapping guest excludes `r1` from `[0,1d)`; the same guest, merely
touching the endpoint of `[1d,2d)`, does not exclude the still-available
`r1`; an occupied room is excluded outright. -/
theorem getAvailableRooms_overlap_boundary_witness :
    room101 ∉ touchState.getAvailableRooms 0 86400000 ∧
    room101 ∈ touchState.getAvailableRooms 86400000 172800000 ∧
    room101occupied ∉ occupiedState.getAvailableRooms 0 86400000 := by
  refine ⟨?_, ?_, ?_⟩
  · exact (getAvailableRooms_overlap_boundary touchState 0 86400000 room101).1
      guestArecord (by decide) (by decide) (by decide) (by decide) (by decide)
  · exact (getAvailableRooms_overlap_boundary touchState 86400000 172800000 room101).2.1
      (by decide) (by decide)
      (by intro g hg hact hrid
          have : g = guestArecord := by
            simpa [touchState] using hg
          subst this
          left
          decide)
  · exact (getAvailableRooms_overlap_boundary occupiedState 0 86400000 room101occupied).2.2
      (by decide)

/-! ### C4 — status filter of the availability queries -/

/-- C4 counterexample: the drizzle `DatabaseStorage.getAvailableRooms`
starts from ALL rooms, so a `maintenance` room with no overlapping guest
IS returned; and `MemStorage.getAvailableRooms` starts from
status-`available` rooms only, so an `occupied` room with no guest rows
at all is NOT returned — neither implementation "starts from all Rooms
whose status is not maintenance". -/
theorem maintenance_room_returned :
    maintenanceRoom ∈ maintState.dbGetAvailableRooms 0 86400000 ∧
    room101occupied ∉ occupiedState.getAvailableRooms 0 86400000 := by
  decide

/-- C4 (amended): `MemStorage.getAvailableRooms` starts from the rooms
whose status is exactly `"available"` (hence a `maintenance` room is
never in its result), while the drizzle `DatabaseStorage` variant applies
no status filter at all: any stored room without an overlapping active
guest is returned, maintenance or not. -/
theorem getAvailableRooms_status_filter (s : MemState) (a b : Int) (r : Room) :
    (r ∈ s.getAvailableRooms a b → r.status = "available") ∧
    (r.status = "maintenance" → r ∉ s.getAvailableRooms a b) ∧
    (r ∈ s.rooms →
      (∀ g ∈ s.guests, g.status = "active" → g.roomId = some r.id →
        ¬(g.checkinDate < b ∧ g.checkoutDate > a)) →
      r ∈ s.dbGetAvailableRooms a b) := by
  refine ⟨?_, ?_, ?_⟩
  · intro hmem
    exact ((mem_getAvailableRooms s a b r).mp hmem).2.1
  · intro hst hmem
    have := ((mem_getAvailableRooms s a b r).mp hmem).2.1
    rw [hst] at this
    simp at this
  · intro hr hng
    exact (mem_dbGetAvailableRooms s a b r).mpr ⟨hr, fun g hg hact hrid hov =>
      hng g hg hact hrid hov⟩

/-- Witness for C4: `room101` is returned for `[0,1d)` on the fresh store
and is indeed `available`; the maintenance room is never in the
`MemStorage` result; and the guest-free maintenance store returns its
maintenance room through the drizzle query. -/
theorem getAvailableRooms_status_filter_witness :
    room101.status = "available" ∧
    maintenanceRoom ∉ maintState.getAvailableRooms 0 86400000 ∧
    maintenanceRoom ∈ maintState.dbGetAvailableRooms 0 86400000 := by
  refine ⟨?_, ?_, ?_⟩
  · exact (getAvailableRooms_status_filter lodgeState0 0 86400000 room101).1 (by decide)
  · exact (getAvailableRooms_status_filter maintState 0 86400000 maintenanceRoom).2.1
      (by decide)
  · exact (getAvailableRooms_status_filter maintState 0 86400000 maintenanceRoom).2.2
      (by decide) (by intro g hg; simp [maintState] at hg)

/-! ### C2 — conflicting registration is rejected without side effects -/

/-- C2: when the requested room exists but an active guest already holds
it for an overlapping range, `POST /api/guests` answers the conflict
error `Room not available for selected dates` and the store is returned
unchanged — no guest, no payment, no room-status write. -/
theorem registerGuest_conflict (s : MemState) (now : Int) (req : InsertGuest)
    (rid : String) (hrid : req.roomId = some rid) (hne : rid ≠ "")
    (hroom : ∃ r ∈ s.rooms, r.id = rid)
    (hconf : ∃ g ∈ s.guests, g.status = "active" ∧ g.roomId = some rid ∧
      g.checkinDate < req.checkoutDate ∧ g.checkoutDate > req.checkinDate) :
    (registerGuest s now req).1 = Except.error "Room not available for selected dates" ∧
    (registerGuest s now req).2.1 = s := by
  have htr : jsTruthy req.roomId = true := by rw [hrid]; simp [jsTruthy, hne]
  have hgetD : req.roomId.getD "" = rid := by rw [hrid]; rfl
  have hfound : (s.getRoom rid).isSome := by
    rcases hroom with ⟨r, hr, hid⟩
    unfold MemState.getRoom
    rw [List.find?_isSome]
    exact ⟨r, hr, by simp [hid]⟩
  have hany : (s.getAvailableRooms req.checkinDate req.checkoutDate).any
      (fun r => r.id == rid) = false := by
    rw [List.any_eq_false]
    intro r' hr' hbeq
    have hid : r'.id = rid := by simpa using hbeq
    rcases hconf with ⟨g, hg, hact, hgrid, h1, h2⟩
    rcases (mem_getAvailableRooms s req.checkinDate req.checkoutDate r').mp hr'
      with ⟨-, -, hng⟩
    exact hng g hg hact (by rw [hgrid, hid]) ⟨by omega, by omega⟩
  rcases Option.isSome_iff_exists.mp hfound with ⟨r0, hr0⟩
  simp [registerGuest, htr, hgetD, hr0, hany]

/-- Witness for C2: on the store where `guestArecord` actively holds `r1`
for `[0,1d)`, a request for `r1` over the overlapping `[12h, 36h)` is
rejected and the store is unchanged. -/
theorem registerGuest_conflict_witness :
    (registerGuest touchState 5
        { guestReqA with checkinDate := 43200000, checkoutDate := 129600000 }).1 =
      Except.error "Room not available for selected dates" ∧
    (registerGuest touchState 5
        { guestReqA with checkinDate := 43200000, checkoutDate := 129600000 }).2.1 =
      touchState := by
  exact registerGuest_conflict touchState 5
    { guestReqA with checkinDate := 43200000, checkoutDate := 129600000 }
    "r1" (by decide) (by decide)
    ⟨room101, by decide, by decide⟩
    ⟨guestArecord, by decide, by decide, by decide, by decide, by decide⟩

/-! ### C3 — order of the room-status write and the guest insert -/

/-- C3 counterexample: a successful registration's storage trace performs
the room-status write (`updateRoom` to `occupied`, position 2) BEFORE
creating the guest record (position 3) — the handler flips the room
first, so the spec's "step 6 only after step 5 succeeded" ordering does
not hold of the code. -/
theorem roomWrite_precedes_guestCreate_cx :
    (registerGuest lodgeState0 0 guestReqA).2.2 =
      [StorageOp.getRoomOp "r1",
       StorageOp.getAvailableRoomsOp 0 86400000,
       StorageOp.updateRoomOp "r1" { status := some "occupied" },
       StorageOp.createGuestOp "uuid-0",
       StorageOp.createPaymentOp "uuid-1"] ∧
    (registerGuest lodgeState0 0 guestReqA).1 = Except.ok guestArecord := by
  decide

/-- C3 (amended): in EVERY execution of `registerGuest` whose trace
contains a room-status write, that write strictly precedes the guest
insert — the reverse of the ordering the spec requires. -/
theorem registerGuest_roomWrite_first (s : MemState) (now : Int)
    (req : InsertGuest) (i j : Nat) (rid gid : String) (p : RoomPatch)
    (hi : (registerGuest s now req).2.2[i]? = some (StorageOp.updateRoomOp rid p))
    (hj : (registerGuest s now req).2.2[j]? = some (StorageOp.createGuestOp gid)) :
    i < j := by
  simp only [registerGuest] at hi hj
  cases htr : jsTruthy req.roomId <;> rw [htr] at hi hj
  · simp only [Bool.false_eq_true, if_false] at hi hj
    rcases i with _ | _ | i <;> simp_all
  · simp only [if_true] at hi hj
    cases hgr : s.getRoom (req.roomId.getD "") <;> rw [hgr] at hi hj
    · rcases i with _ | i <;> simp_all
    · cases ha : (s.getAvailableRooms req.checkinDate req.checkoutDate).any
          (fun r => r.id == req.roomId.getD "") <;> rw [ha] at hi hj
      · simp only [Bool.false_eq_true, if_false] at hi hj
        rcases i with _ | _ | i <;> simp_all
      · simp only [if_true] at hi hj
        rcases i with _ | _ | _ | _ | _ | i <;>
          rcases j with _ | _ | _ | _ | _ | j <;> simp_all

/-- Witness for C3 (amended): on the concrete successful run, the room
write sits at position 2 and the guest insert at position 3. -/
theorem registerGuest_roomWrite_first_witness : (2 : Nat) < 3 :=
  registerGuest_roomWrite_first lodgeState0 0 guestReqA 2 3 "r1" "uuid-0"
    { status := some "occupied" } (by decide) (by decide)

/-! ### C9 — room deletion has no occupancy guard -/

/-- C9 counterexample: `DELETE /api/rooms/:id` removes an `occupied`
room: the handler calls `storage.deleteRoom` unconditionally, so the
occupied `r1` is deleted from the store and the route reports success. -/
theorem occupied_room_deleted :
    room101occupied.status = "occupied" ∧
    (deleteRoomRoute occupiedState "r1").1 = Except.ok () ∧
    (deleteRoomRoute occupiedState "r1").2.rooms = [] := by
  decide

/-- C9 (amended): the delete-room route removes the room with the given
id from the store REGARDLESS of its status (occupied rooms included),
touches no other table, and fails (404) exactly when no stored room has
that id. -/
theorem deleteRoomRoute_unconditional (s : MemState) (id : String) :
    (deleteRoomRoute s id).2.rooms = s.rooms.filter (fun r => !(r.id == id)) ∧
    (deleteRoomRoute s id).2.guests = s.guests ∧
    (deleteRoomRoute s id).2.payments = s.payments ∧
    ((deleteRoomRoute s id).1 = Except.ok () ↔ ∃ r ∈ s.rooms, r.id = id) := by
  have hex : s.rooms.any (fun r => r.id == id) = true ↔ ∃ r ∈ s.rooms, r.id = id := by
    rw [List.any_eq_true]
    simp
  cases han : s.rooms.any (fun r => r.id == id)
  · refine ⟨by simp [deleteRoomRoute, MemState.deleteRoom, han],
      by simp [deleteRoomRoute, MemState.deleteRoom, han],
      by simp [deleteRoomRoute, MemState.deleteRoom, han], ?_⟩
    rw [← hex, han]
    simp [deleteRoomRoute, MemState.deleteRoom, han]
  · refine ⟨by simp [deleteRoomRoute, MemState.deleteRoom, han],
      by simp [deleteRoomRoute, MemState.deleteRoom, han],
      by simp [deleteRoomRoute, MemState.deleteRoom, han], ?_⟩
    rw [← hex, han]
    simp [deleteRoomRoute, MemState.deleteRoom, han]

/-! ### C8 — marking a payment paid -/

/-- A pending payment fixture. -/
def pendingPayment : Payment :=
  { id := "p1", guestId := "g1", amount := 1800, paymentMethod := "cash",
    status := "pending", createdAt := 0, paidAt := none }

/-- The patch `{ status: "paid" }` sent by the payment route. -/
def paidPatch : PaymentPatch := { status := some "paid" }

/-- Store holding only `pendingPayment`. -/
def payState : MemState :=
  { rooms := [], guests := [], payments := [pendingPayment], smsLogs := [], nextId := 0 }

/-- C8 counterexample: the drizzle `DatabaseStorage.updatePayment` only
applies the supplied columns, so marking `p1` paid leaves `paidAt` null —
no `paidAt = now()` is recorded by that implementation (and the route's
insert schema cannot even carry a `paidAt` value). -/
theorem dbUpdatePayment_leaves_paidAt_null :
    (dbUpdatePayment [pendingPayment] "p1" paidPatch).1 =
      some { pendingPayment with status := "paid" } ∧
    ({ pendingPayment with status := "paid" } : Payment).paidAt = none := by
  decide

/-- C8 (amended): `MemStorage.updatePayment` with a `status: "paid"`
patch sets the payment's status to `paid` AND stamps `paidAt = now`; the
`DatabaseStorage.updatePayment` implementations apply only the supplied
columns, so the status becomes `paid` but `paidAt` keeps its previous
value (null unless it was already set). -/
theorem updatePayment_paid_behaviour (s : MemState) (now : Int) (id : String)
    (p : PaymentPatch) (hp : p.status = some "paid") :
    (∀ pmt, (s.updatePayment now id p).1 = some pmt →
      pmt.status = "paid" ∧ pmt.paidAt = some now) ∧
    (∀ existing, s.payments.find? (fun q => q.id == id) = some existing →
      (dbUpdatePayment s.payments id p).1 = some (applyPaymentPatch existing p) ∧
      (applyPaymentPatch existing p).status = "paid" ∧
      (applyPaymentPatch existing p).paidAt = existing.paidAt) := by
  constructor
  · intro pmt hpmt
    unfold MemState.updatePayment at hpmt
    cases hf : s.payments.find? (fun q => q.id == id) <;> rw [hf] at hpmt
    · simp at hpmt
    · simp only [Option.some.injEq] at hpmt
      subst hpmt
      constructor
      · simp [applyPaymentPatch, hp]
      · simp [hp]
  · intro existing hf
    unfold dbUpdatePayment
    rw [hf]
    exact ⟨rfl, by simp [applyPaymentPatch, hp], rfl⟩

/-- Witness for C8 (amended): marking `p1` paid at time 77 through
`MemStorage` yields status `paid` with `paidAt = 77`. -/
theorem updatePayment_paid_behaviour_witness :
    ({ pendingPayment with status := "paid", paidAt := some 77 } : Payment).status = "paid" ∧
    ({ pendingPayment with status := "paid", paidAt := some 77 } : Payment).paidAt = some 77 :=
  (updatePayment_paid_behaviour payState 77 "p1" paidPatch (by decide)).1
    { pendingPayment with status := "paid", paidAt := some 77 } (by decide)

/-! ### C10 — registration without a requested room -/

/-- C10: with no `roomId` in the request (and no status override), the
handler skips the availability query and every room write — the trace
holds only the two create operations and the room table is untouched —
yet it still creates the guest (with null room and status `active`) and
a pending payment over the request's `totalAmount`, and answers the
guest. -/
theorem registerGuest_noRoom (s : MemState) (now : Int) (req : InsertGuest)
    (hroom : req.roomId = none) (hstatus : req.status = none) :
    (registerGuest s now req).1 = Except.ok (s.createGuest now req).1 ∧
    (s.createGuest now req).1.roomId = none ∧
    (s.createGuest now req).1.status = "active" ∧
    (registerGuest s now req).2.1.rooms = s.rooms ∧
    (registerGuest s now req).2.1.guests = s.guests ++ [(s.createGuest now req).1] ∧
    (∃ pmt : Payment,
      (registerGuest s now req).2.1.payments = s.payments ++ [pmt] ∧
      pmt.amount = req.totalAmount ∧ pmt.status = "pending" ∧
      pmt.guestId = (s.createGuest now req).1.id) ∧
    (registerGuest s now req).2.2 =
      [StorageOp.createGuestOp (s.createGuest now req).1.id,
       StorageOp.createPaymentOp (freshId (s.nextId + 1))] := by
  have htr : jsTruthy req.roomId = false := by rw [hroom]; rfl
  refine ⟨?_, ?_, ?_, ?_, ?_, ⟨((s.createGuest now req).2.createPayment now
    { guestId := (s.createGuest now req).1.id
      amount := req.totalAmount
      paymentMethod := "cash"
      status := some "pending" }).1, ?_, ?_, ?_, ?_⟩, ?_⟩ <;>
    simp [registerGuest, jsTruthy, MemState.createGuest, MemState.createPayment,
      jsOrNull, jsOrStr, hroom, hstatus]

/-- Request identical to `guestReqA` but with no room. -/
def reqNoRoom : InsertGuest := { guestReqA with roomId := none }

/-- Witness for C10: the concrete roomless registration on the fresh
store. -/
theorem registerGuest_noRoom_witness :
    (registerGuest lodgeState0 0 reqNoRoom).1 =
      Except.ok (lodgeState0.createGuest 0 reqNoRoom).1 ∧
    (lodgeState0.createGuest 0 reqNoRoom).1.roomId = none ∧
    (lodgeState0.createGuest 0 reqNoRoom).1.status = "active" ∧
    (registerGuest lodgeState0 0 reqNoRoom).2.1.rooms = lodgeState0.rooms ∧
    (registerGuest lodgeState0 0 reqNoRoom).2.1.guests =
      lodgeState0.guests ++ [(lodgeState0.createGuest 0 reqNoRoom).1] ∧
    (∃ pmt : Payment,
      (registerGuest lodgeState0 0 reqNoRoom).2.1.payments =
        lodgeState0.payments ++ [pmt] ∧
      pmt.amount = reqNoRoom.totalAmount ∧ pmt.status = "pending" ∧
      pmt.guestId = (lodgeState0.createGuest 0 reqNoRoom).1.id) ∧
    (registerGuest lodgeState0 0 reqNoRoom).2.2 =
      [StorageOp.createGuestOp (lodgeState0.createGuest 0 reqNoRoom).1.id,
       StorageOp.createPaymentOp (freshId (lodgeState0.nextId + 1))] :=
  registerGuest_noRoom lodgeState0 0 reqNoRoom (by decide) (by decide)

/-! ### C5 — minimum-one-day billing -/

/-- Exact rational ceiling of `d / 86400000` (one day in milliseconds),
expressed through Nat ceiling division. -/
theorem ceil_div_day (d : ℕ) :
    Int.ceil ((d : ℚ) / ((86400000 : ℕ) : ℚ)) =
      (((d + 86400000 - 1) / 86400000 : ℕ) : ℤ) := by
  have h2 : ((d : ℚ) / ((86400000 : ℕ) : ℚ)) =
      -(((-(d : ℤ) : ℤ) : ℚ) / ((86400000 : ℕ) : ℚ)) := by
    push_cast
    ring
  rw [h2, Int.ceil_neg, Rat.floor_intCast_div_natCast]
  omega

/-- C5: for `checkin ≤ checkout` the billed days equal
`max(1, ⌈(checkout − checkin) / 1 day⌉)` — here rendered through exact
Nat ceiling division of the millisecond difference — so a same-timestamp
stay bills exactly one day, and the base amount is the nightly price
times the billed days. -/
theorem calculateCost_minimum_one_day (bp dp : ℚ) (ci co : Int) (h : ci ≤ co) :
    (calculateCost bp dp ci co).totalDays =
      max 1 ((((co - ci).toNat + 86400000 - 1) / 86400000 : ℕ) : ℤ) ∧
    (ci = co → (calculateCost bp dp ci co).totalDays = 1) ∧
    (calculateCost bp dp ci co).baseAmount =
      bp * ((calculateCost bp dp ci co).totalDays : ℚ) := by
  refine ⟨?_, ?_, ?_⟩
  · simp only [calculateCost]
    have hd : ((co - ci).toNat : ℤ) = co - ci := Int.toNat_of_nonneg (by omega)
    have hq : ((co : ℚ) - (ci : ℚ)) / (1000 * 60 * 60 * 24) =
        (((co - ci).toNat : ℕ) : ℚ) / ((86400000 : ℕ) : ℚ) := by
      have hcast : (((co - ci).toNat : ℕ) : ℚ) = ((co : ℚ) - (ci : ℚ)) := by
        exact_mod_cast congrArg (fun z : ℤ => (z : ℚ)) hd
      rw [hcast]
      norm_num
    rw [hq, ceil_div_day]
  · intro hco
    subst hco
    simp only [calculateCost]
    norm_num
  · simp only [calculateCost]

/-- Witness for C5: a same-timestamp stay at price 1000 bills one day,
2000 of base amount never arising; `0 ≤ 0` discharges the hypothesis. -/
theorem calculateCost_minimum_one_day_witness :
    (calculateCost 1000 0 0 0).totalDays =
      max 1 ((((0 - 0 : ℤ).toNat + 86400000 - 1) / 86400000 : ℕ) : ℤ) ∧
    ((0 : ℤ) = 0 → (calculateCost 1000 0 0 0).totalDays = 1) ∧
    (calculateCost 1000 0 0 0).baseAmount =
      1000 * ((calculateCost 1000 0 0 0).totalDays : ℚ) :=
  calculateCost_minimum_one_day 1000 0 0 0 (by decide)

/-! ### SMS service lemmas (C6, C7) -/

/-- Replacing a present key in the rate-limit map and looking it up
yields the new list. -/
theorem lookup_map_set (phone : String) (l : List Int) (m : RateMap) :
    List.lookup phone (m.map (fun kv => if kv.1 == phone then (phone, l) else kv)) =
      if m.any (fun kv => kv.1 == phone) then some l else none := by
  induction m with
  | nil => simp
  | cons kv rest ih =>
    obtain ⟨k, v⟩ := kv
    cases hkb : (k == phone)
    · have hk : k ≠ phone := ne_of_beq_false hkb
      have hpb : (phone == k) = false := beq_false_of_ne (Ne.symm hk)
      simp only [List.map_cons, hkb, Bool.false_eq_true, if_false, List.lookup_cons,
        hpb, List.any_cons, Bool.false_or]
      simpa using ih
    · have hk : k = phone := by simpa using hkb
      simp [List.lookup_cons, hk, List.any_cons]

/-- Appending a fresh key to the rate-limit map and looking it up yields
the new list. -/
theorem lookup_append_fresh (phone : String) (l : List Int) (m : RateMap)
    (h : m.any (fun kv => kv.1 == phone) = false) :
    List.lookup phone (m ++ [(phone, l)]) = some l := by
  induction m with
  | nil => simp [List.lookup_cons]
  | cons kv rest ih =>
    obtain ⟨k, v⟩ := kv
    simp only [List.any_cons, Bool.or_eq_false_iff] at h
    have hpb : (phone == k) = false :=
      beq_false_of_ne (Ne.symm (ne_of_beq_false h.1))
    simp [List.lookup_cons, hpb, ih h.2]

/-- Setting a phone's attempt list and reading it back yields that list. -/
theorem rateMapGet_set (m : RateMap) (phone : String) (l : List Int) :
    rateMapGet (rateMapSet m phone l) phone = l := by
  unfold rateMapGet rateMapSet
  cases han : m.any (fun kv => kv.1 == phone)
  · simp only [Bool.false_eq_true, if_false]
    rw [lookup_append_fresh phone l m han]
  · simp only [if_true]
    rw [lookup_map_set phone l m, han]
    simp

/-- Happy-path step: with a valid active template, no missing variables
and fewer than five recent attempts, `sendTemplatedSMS` contacts the
channel, records the attempt, and logs the channel's outcome. -/
theorem sendTemplatedSMS_allowed (rm : RateMap) (st : MemState) (now : Int)
    (tid phone : String) (vars : List (String × String)) (gid : Option String)
    (ch : SMSResponse) (tmpl : SMSTemplate)
    (hfind : DEFAULT_SMS_TEMPLATES.find? (fun t => t.id == tid && t.active) = some tmpl)
    (hvars : tmpl.templateVars.filter (fun v => !(jsTruthy (List.lookup v vars))) = [])
    (hlen : ((rateMapGet rm phone).filter (fun time => now - time < 60000)).length < 5) :
    sendTemplatedSMS rm st now tid phone vars gid ch =
      (ch, true,
       rateMapSet rm phone
         ((rateMapGet rm phone).filter (fun time => now - time < 60000) ++ [now]),
       logSMS st now gid phone (renderTemplate tmpl.template vars)
         (if ch.success then "sent" else "failed")) := by
  unfold sendTemplatedSMS
  rw [hfind]
  simp only [hvars, List.length_nil, gt_iff_lt, lt_self_iff_false, if_false]
  unfold checkRateLimit
  simp only [if_neg (Nat.not_le.mpr hlen)]
  simp

/-- Blocked step: with five or more recent attempts, `sendTemplatedSMS`
fails with the rate-limit error, leaves the rate map unchanged, and does
not contact the channel. -/
theorem sendTemplatedSMS_blocked (rm : RateMap) (st : MemState) (now : Int)
    (tid phone : String) (vars : List (String × String)) (gid : Option String)
    (ch : SMSResponse) (tmpl : SMSTemplate)
    (hfind : DEFAULT_SMS_TEMPLATES.find? (fun t => t.id == tid && t.active) = some tmpl)
    (hvars : tmpl.templateVars.filter (fun v => !(jsTruthy (List.lookup v vars))) = [])
    (hlen : 5 ≤ ((rateMapGet rm phone).filter (fun time => now - time < 60000)).length) :
    sendTemplatedSMS rm st now tid phone vars gid ch =
      ({ success := false,
         error := some "Rate limit exceeded. Please try again later." },
       false, rm,
       logSMS st now gid phone ("Template: " ++ tid) "failed") := by
  unfold sendTemplatedSMS
  rw [hfind]
  simp only [hvars, List.length_nil, gt_iff_lt, lt_self_iff_false, if_false]
  unfold checkRateLimit
  simp only [if_pos hlen]
  simp

/-- Sequential driver: perform one `sendTemplatedSMS` per `(time,
channel-response)` entry, threading the rate map and the store, and
collect each call's `(response, channel-contacted)` pair. -/
def sendRun (rm : RateMap) (st : MemState) (tid phone : String)
    (vars : List (String × String)) (gid : Option String) :
    List (Int × SMSResponse) → List (SMSResponse × Bool) × RateMap × MemState
  | [] => ([], rm, st)
  | (t, ch) :: rest =>
    let r := sendTemplatedSMS rm st t tid phone vars gid ch
    let next := sendRun r.2.2.1 r.2.2.2 tid phone vars gid rest
    ((r.1, r.2.1) :: next.1, next.2)

/-- C6: six rapid `sendTemplatedSMS` calls to one phone within a rolling
60-second window (times nondecreasing, `t5 − t0 < 60000`), starting from
a rate map with no recent attempts for that phone: the first five reach
the delivery channel and return the channel's own response; the sixth
fails with the rate-limit error and the channel is not contacted. -/
theorem smsRateLimit_six_rapid (rm0 : RateMap) (st0 : MemState)
    (tid phone : String) (tmpl : SMSTemplate) (vars : List (String × String))
    (gid : Option String) (t0 t1 t2 t3 t4 t5 : Int)
    (c0 c1 c2 c3 c4 c5 : SMSResponse)
    (hfind : DEFAULT_SMS_TEMPLATES.find? (fun t => t.id == tid && t.active) = some tmpl)
    (hvars : tmpl.templateVars.filter (fun v => !(jsTruthy (List.lookup v vars))) = [])
    (hfresh : rateMapGet rm0 phone = [])
    (h01 : t0 ≤ t1) (h12 : t1 ≤ t2) (h23 : t2 ≤ t3) (h34 : t3 ≤ t4) (h45 : t4 ≤ t5)
    (hwin : t5 - t0 < 60000) :
    (sendRun rm0 st0 tid phone vars gid
        [(t0, c0), (t1, c1), (t2, c2), (t3, c3), (t4, c4), (t5, c5)]).1 =
      [(c0, true), (c1, true), (c2, true), (c3, true), (c4, true),
       ({ success := false,
          error := some "Rate limit exceeded. Please try again later." }, false)] := by
  have hf1 : ([t0] : List Int).filter (fun time => t1 - time < 60000) = [t0] := by
    simp only [List.filter_eq_self, List.mem_singleton]
    intro a ha
    subst ha
    simp only [decide_eq_true_eq]
    omega
  have hf2 : ([t0, t1] : List Int).filter (fun time => t2 - time < 60000) = [t0, t1] := by
    simp only [List.filter_eq_self, List.mem_cons, List.mem_singleton]
    intro a ha
    simp only [decide_eq_true_eq]
    rcases ha with h | h | h <;> simp_all <;> omega
  have hf3 : ([t0, t1, t2] : List Int).filter (fun time => t3 - time < 60000) =
      [t0, t1, t2] := by
    simp only [List.filter_eq_self, List.mem_cons, List.mem_singleton]
    intro a ha
    simp only [decide_eq_true_eq]
    rcases ha with h | h | h | h <;> simp_all <;> omega
  have hf4 : ([t0, t1, t2, t3] : List Int).filter (fun time => t4 - time < 60000) =
      [t0, t1, t2, t3] := by
    simp only [List.filter_eq_self, List.mem_cons, List.mem_singleton]
    intro a ha
    simp only [decide_eq_true_eq]
    rcases ha with h | h | h | h | h <;> simp_all <;> omega
  have hf5 : ([t0, t1, t2, t3, t4] : List Int).filter (fun time => t5 - time < 60000) =
      [t0, t1, t2, t3, t4] := by
    simp only [List.filter_eq_self, List.mem_cons, List.mem_singleton]
    intro a ha
    simp only [decide_eq_true_eq]
    rcases ha with h | h | h | h | h | h <;> simp_all <;> omega
  set m1 := rateMapSet rm0 phone [t0] with hm1
  set m2 := rateMapSet m1 phone [t0, t1] with hm2
  set m3 := rateMapSet m2 phone [t0, t1, t2] with hm3
  set m4 := rateMapSet m3 phone [t0, t1, t2, t3] with hm4
  set m5 := rateMapSet m4 phone [t0, t1, t2, t3, t4] with hm5
  have g1 : rateMapGet m1 phone = [t0] := rateMapGet_set rm0 phone [t0]
  have g2 : rateMapGet m2 phone = [t0, t1] := rateMapGet_set m1 phone [t0, t1]
  have g3 : rateMapGet m3 phone = [t0, t1, t2] := rateMapGet_set m2 phone [t0, t1, t2]
  have g4 : rateMapGet m4 phone = [t0, t1, t2, t3] :=
    rateMapGet_set m3 phone [t0, t1, t2, t3]
  have g5 : rateMapGet m5 phone = [t0, t1, t2, t3, t4] :=
    rateMapGet_set m4 phone [t0, t1, t2, t3, t4]
  have s0 : ∀ st, sendTemplatedSMS rm0 st t0 tid phone vars gid c0 =
      (c0, true, m1,
       logSMS st t0 gid phone (renderTemplate tmpl.template vars)
         (if c0.success then "sent" else "failed")) := by
    intro st
    have h := sendTemplatedSMS_allowed rm0 st t0 tid phone vars gid c0 tmpl hfind hvars
      (by rw [hfresh]; simp)
    rw [hfresh] at h
    simpa using h
  have s1 : ∀ st, sendTemplatedSMS m1 st t1 tid phone vars gid c1 =
      (c1, true, m2,
       logSMS st t1 gid phone (renderTemplate tmpl.template vars)
         (if c1.success then "sent" else "failed")) := by
    intro st
    have h := sendTemplatedSMS_allowed m1 st t1 tid phone vars gid c1 tmpl hfind hvars
      (by rw [g1, hf1]; simp)
    rw [g1, hf1] at h
    exact h
  have s2 : ∀ st, sendTemplatedSMS m2 st t2 tid phone vars gid c2 =
      (c2, true, m3,
       logSMS st t2 gid phone (renderTemplate tmpl.template vars)
         (if c2.success then "sent" else "failed")) := by
    intro st
    have h := sendTemplatedSMS_allowed m2 st t2 tid phone vars gid c2 tmpl hfind hvars
      (by rw [g2, hf2]; simp)
    rw [g2, hf2] at h
    exact h
  have s3 : ∀ st, sendTemplatedSMS m3 st t3 tid phone vars gid c3 =
      (c3, true, m4,
       logSMS st t3 gid phone (renderTemplate tmpl.template vars)
         (if c3.success then "sent" else "failed")) := by
    intro st
    have h := sendTemplatedSMS_allowed m3 st t3 tid phone vars gid c3 tmpl hfind hvars
      (by rw [g3, hf3]; simp)
    rw [g3, hf3] at h
    exact h
  have s4 : ∀ st, sendTemplatedSMS m4 st t4 tid phone vars gid c4 =
      (c4, true, m5,
       logSMS st t4 gid phone (renderTemplate tmpl.template vars)
         (if c4.success then "sent" else "failed")) := by
    intro st
    have h := sendTemplatedSMS_allowed m4 st t4 tid phone vars gid c4 tmpl hfind hvars
      (by rw [g4, hf4]; simp)
    rw [g4, hf4] at h
    exact h
  have s5 : ∀ st, sendTemplatedSMS m5 st t5 tid phone vars gid c5 =
      ({ success := false,
         error := some "Rate limit exceeded. Please try again later." },
       false, m5,
       logSMS st t5 gid phone ("Template: " ++ tid) "failed") := by
    intro st
    exact sendTemplatedSMS_blocked m5 st t5 tid phone vars gid c5 tmpl hfind hvars
      (by rw [g5, hf5]; simp)
  simp only [sendRun, s0, s1, s2, s3, s4, s5]

set_option maxRecDepth 100000 in
/-- Witness for C6: six calls at times 0..5 ms to one phone with the
`checkout-bill` template — five channel successes, then the rate-limit
failure. -/
theorem smsRateLimit_six_rapid_witness :
    (sendRun [] MemState.empty "checkout-bill" "9876543210"
        [("LODGE_NAME", "Lodge"), ("TOTAL_AMOUNT", "1800"), ("DAYS", "2")] none
        [(0, { success := true }), (1, { success := true }), (2, { success := true }),
         (3, { success := true }), (4, { success := true }), (5, { success := true })]).1 =
      [({ success := true }, true), ({ success := true }, true),
       ({ success := true }, true), ({ success := true }, true),
       ({ success := true }, true),
       ({ success := false,
          error := some "Rate limit exceeded. Please try again later." }, false)] :=
  smsRateLimit_six_rapid [] MemState.empty "checkout-bill" "9876543210"
    checkoutBillTemplate
    [("LODGE_NAME", "Lodge"), ("TOTAL_AMOUNT", "1800"), ("DAYS", "2")] none
    0 1 2 3 4 5
    { success := true } { success := true } { success := true }
    { success := true } { success := true } { success := true }
    (by decide) (by decide) (by decide)
    (by decide) (by decide) (by decide) (by decide) (by decide) (by decide)

/-! ### C7 — logging of delivery outcomes -/

set_option maxRecDepth 100000 in
/-- C7 counterexample: a templated send with NO `guestId` reaches the
delivery channel (second component `true`) yet writes no log row at all
— `logSMS` silently skips logging whenever `guestId` is falsy, so the
"unconditionally, regardless of the other arguments" part of the claim
fails. -/
theorem sms_delivery_without_log :
    (sendTemplatedSMS [] MemState.empty 0 "checkout-bill" "9876543210"
        [("LODGE_NAME", "Lodge"), ("TOTAL_AMOUNT", "1800"), ("DAYS", "2")]
        none { success := true }).2.1 = true ∧
    (sendTemplatedSMS [] MemState.empty 0 "checkout-bill" "9876543210"
        [("LODGE_NAME", "Lodge"), ("TOTAL_AMOUNT", "1800"), ("DAYS", "2")]
        none { success := true }).2.2.2.smsLogs = [] := by
  decide

/-- C7 (amended): a call that reaches the delivery attempt logs exactly
one row recording the outcome (`sent` on channel success, `failed` on
channel failure) — but only when a truthy `guestId` was supplied; with
`guestId` absent the log is left untouched. -/
theorem sendTemplatedSMS_logging (rm : RateMap) (st : MemState) (now : Int)
    (tid phone : String) (vars : List (String × String)) (g : String)
    (ch : SMSResponse) (tmpl : SMSTemplate)
    (hfind : DEFAULT_SMS_TEMPLATES.find? (fun t => t.id == tid && t.active) = some tmpl)
    (hvars : tmpl.templateVars.filter (fun v => !(jsTruthy (List.lookup v vars))) = [])
    (hallow : ((rateMapGet rm phone).filter (fun time => now - time < 60000)).length < 5)
    (hg : g ≠ "") :
    (sendTemplatedSMS rm st now tid phone vars (some g) ch).2.2.2.smsLogs =
      st.smsLogs ++
        [{ id := freshId st.nextId, guestId := g, phoneNumber := phone,
           message := renderTemplate tmpl.template vars,
           status := if ch.success then "sent" else "failed", sentAt := now }] ∧
    (sendTemplatedSMS rm st now tid phone vars none ch).2.2.2.smsLogs =
      st.smsLogs := by
  constructor
  · rw [sendTemplatedSMS_allowed rm st now tid phone vars (some g) ch tmpl hfind hvars hallow]
    simp only [logSMS, jsTruthy, hg, decide_not]
    cases hcs : ch.success <;>
      simp [hg, MemState.createSmsLog, jsOrStr]
  · rw [sendTemplatedSMS_allowed rm st now tid phone vars none ch tmpl hfind hvars hallow]
    simp [logSMS, jsTruthy]

set_option maxRecDepth 100000 in
/-- Witness for C7 (amended): with guest `g1` supplied, the successful
delivery appends exactly one `sent` row; with none supplied nothing is
appended. -/
theorem sendTemplatedSMS_logging_witness :
    (sendTemplatedSMS [] MemState.empty 0 "checkout-bill" "9876543210"
        [("LODGE_NAME", "Lodge"), ("TOTAL_AMOUNT", "1800"), ("DAYS", "2")]
        (some "g1") { success := true }).2.2.2.smsLogs =
      MemState.empty.smsLogs ++
        [{ id := freshId MemState.empty.nextId, guestId := "g1",
           phoneNumber := "9876543210",
           message := renderTemplate checkoutBillTemplate.template
             [("LODGE_NAME", "Lodge"), ("TOTAL_AMOUNT", "1800"), ("DAYS", "2")],
           status := if ({ success := true } : SMSResponse).success then "sent" else "failed",
           sentAt := 0 }] ∧
    (sendTemplatedSMS [] MemState.empty 0 "checkout-bill" "9876543210"
        [("LODGE_NAME", "Lodge"), ("TOTAL_AMOUNT", "1800"), ("DAYS", "2")]
        none { success := true }).2.2.2.smsLogs = MemState.empty.smsLogs :=
  sendTemplatedSMS_logging [] MemState.empty 0 "checkout-bill" "9876543210"
    [("LODGE_NAME", "Lodge"), ("TOTAL_AMOUNT", "1800"), ("DAYS", "2")] "g1"
    { success := true } checkoutBillTemplate
    (by decide) (by decide) (by decide) (by decide)
